import Mathlib

/-!
Verification development for the figma-to-video repository.

The repository bridges a mutable, seekable GSAP animation timeline into
Remotion's pure frame-indexed renderer.  The bridge hook
(`src/hooks/useGsapTimeline`) is referenced by the scene components but its
source file is not part of the corpus, so the bridge is modelled from the
specification (spec.md §3 Data Model, §4.1 Frame-Timeline Bridge).  The
scene data — the carousel timeline of
`src/components/scenes/InstagramStory.tsx`, the composition registry of the
Root component, and the preset library `src/lib/animations.ts` — is embedded
directly from the source files.

Times and animatable property values are represented as rationals (`ℚ`);
element handles are natural numbers; property names are strings.
-/

/-- Modelled from the spec: a tween (§3 Data Model; the bridge source
`src/hooks/useGsapTimeline` is missing from the corpus).  A tween has a
target element handle, a targeted property, a target (end) value, a start
offset, a duration, and an easing function.  The scenes use GSAP `.to`
tweens whose start value is the element's current (CSS-initial) value, so
only the end value is stored. -/
structure Tween where
  target : ℕ
  prop : String
  endValue : ℚ
  startTime : ℚ
  duration : ℚ
  ease : ℚ → ℚ

/-- Modelled from the spec: the instant at which a tween stops affecting
its property. -/
def Tween.endTime (tw : Tween) : ℚ :=
  tw.startTime + tw.duration

/-- Modelled from the spec: the value a single tween gives its property at
time `t`, given the value `v` the property would have without it.  Before
the tween's start it contributes nothing; at or after its end it yields its
end value; inside its span it eases from `v` to the end value. -/
def tweenValueAt (v : ℚ) (tw : Tween) (t : ℚ) : ℚ :=
  if t < tw.startTime then v
  else if tw.startTime + tw.duration ≤ t then tw.endValue
  else v + (tw.endValue - v) * tw.ease ((t - tw.startTime) / tw.duration)

/-- Modelled from the spec: the tweens of a timeline that affect property
`p` of element `el`, in the order they were added. -/
def tweensOn (tws : List Tween) (el : ℕ) (p : String) : List Tween :=
  tws.filter fun tw => tw.target == el && tw.prop == p

/-- Modelled from the spec: the value of property `p` of element `el` at
time `t`, recomputed from scratch from the tween list and the element's
CSS-initial value `init` (later-added tweens override earlier ones, the
spec's last-added-wins rule). -/
def valueAt (tws : List Tween) (el : ℕ) (p : String) (init : ℚ) (t : ℚ) : ℚ :=
  (tweensOn tws el p).foldl (fun v tw => tweenValueAt v tw t) init

/-- Modelled from the spec: an Animation Timeline — an ordered collection
of tweens together with its paused/playing flag (§3). -/
structure Timeline where
  tweens : List Tween
  paused : Bool

/-- Modelled from the spec: the total span of the timeline (end of the
last-ending tween). -/
def Timeline.duration (tl : Timeline) : ℚ :=
  (tl.tweens.map Tween.endTime).foldr max 0

/-- Modelled from the spec: seek times are clamped to the timeline's own
defined start/end — no extrapolation or looping (§4.1). -/
def Timeline.clampTime (tl : Timeline) (t : ℚ) : ℚ :=
  min (max t 0) tl.duration

/-- Modelled from the spec: putting a timeline into the paused state. -/
def Timeline.pause (tl : Timeline) : Timeline :=
  { tl with paused := true }

/-- Modelled from the spec: `gsap.timeline()` with no `paused` option, as
the caller-side factories build it — the resulting timeline is NOT paused
(GSAP's default is auto-play), so pausing must be established by the
bridge. -/
def gsapTimeline (tws : List Tween) : Timeline :=
  { tweens := tws, paused := false }

/-- Modelled from the spec: the state of one bridge instance — the
optional timeline (none before mount and after teardown), the count of
factory invocations, the current animatable property values of the scoped
elements, and their CSS-initial values (what the scope mechanism restores
on teardown). -/
structure Bridge where
  timeline : Option Timeline
  factoryCalls : ℕ
  elems : ℕ → String → ℚ
  initial : ℕ → String → ℚ

/-- Modelled from the spec: a freshly instantiated subtree, before mount
effects have run: no timeline exists, the factory has never been invoked,
and every element shows its CSS-initial values. -/
def Bridge.init (i : ℕ → String → ℚ) : Bridge :=
  { timeline := none, factoryCalls := 0, elems := i, initial := i }

/-- Modelled from the spec: mounting invokes the timeline factory exactly
once and immediately puts the resulting timeline into the paused state,
before any seek occurs (§4.1 Guarantee). -/
def Bridge.mount (factory : Unit → Timeline) (b : Bridge) : Bridge :=
  { b with
    timeline := some (Timeline.pause (factory ()))
    factoryCalls := b.factoryCalls + 1 }

/-- Modelled from the spec: the time the bridge seeks to for Frame Index
`f` at Frame Rate `r`: `frameIndex / frameRate` (§3 Invariants). -/
def seekTime (f r : ℕ) : ℚ :=
  (f : ℚ) / (r : ℚ)

/-- Modelled from the spec: seeking the timeline to time `t` recomputes
every scoped element's animatable properties from the tween list and the
CSS-initial values as of the clamped time; nothing else in the bridge
state changes. -/
def Bridge.applySeek (tl : Timeline) (t : ℚ) (b : Bridge) : Bridge :=
  { b with
    elems := fun el p => valueAt tl.tweens el p (b.initial el p) (tl.clampTime t) }

/-- Modelled from the spec: one frame render — the bridge seeks the
current timeline to `frameIndex / frameRate`; if no timeline has been
constructed yet, the seek is silently skipped (§4.1 Error conditions). -/
def Bridge.renderFrame (f r : ℕ) (b : Bridge) : Bridge :=
  match b.timeline with
  | none => b
  | some tl => Bridge.applySeek tl (seekTime f r) b

/-- Modelled from the spec: a sequence of frame renders (each a pair of
Frame Index and Frame Rate), in the order the renderer issues them. -/
def Bridge.renderFrames (frames : List (ℕ × ℕ)) (b : Bridge) : Bridge :=
  frames.foldl (fun s fr => Bridge.renderFrame fr.1 fr.2 s) b

/-- Modelled from the spec: teardown — the bridge releases the timeline
and the scope mechanism reverses every tracked property mutation,
restoring the CSS-initial values (§4.1 Teardown). -/
def Bridge.unmount (b : Bridge) : Bridge :=
  { b with timeline := none, elems := b.initial }

/-! ### Concrete scenario from the spec (§8)

Frame Rate 30; a single linear tween of `opacity` from 0 (the CSS-initial
value) to 1 over 1 second starting at time 0. -/

/-- Modelled from the spec: the single linear opacity tween of the §8
concrete scenario, targeting element 1. -/
def demoTween : Tween :=
  { target := 1, prop := "opacity", endValue := 1, startTime := 0,
    duration := 1, ease := id }

/-- Modelled from the spec: the §8 scenario's timeline factory — a
`gsap.timeline()` holding only `demoTween`. -/
def demoFactory : Unit → Timeline :=
  fun _ => gsapTimeline [demoTween]

/-- Modelled from the spec: the §8 scenario's bridge, mounted over
elements whose CSS-initial values are all 0. -/
def demoBridge : Bridge :=
  Bridge.mount demoFactory (Bridge.init fun _ _ => 0)

/-! ### Composition registry (Root component, from the source) -/

/-- A `<Composition>` registration of the Root component: id, duration in
frames, canvas dimensions and frame rate. -/
structure CompositionConfig where
  id : String
  durationInFrames : ℕ
  width : ℕ
  height : ℕ
  fps : ℕ

/-- The registered length of a composition in seconds:
`durationInFrames / fps`. -/
def CompositionConfig.durationSeconds (c : CompositionConfig) : ℚ :=
  (c.durationInFrames : ℚ) / (c.fps : ℚ)

/-- The `Scene01` composition registered by the Root component. -/
def scene01Composition : CompositionConfig :=
  { id := "Scene01", durationInFrames := 150, width := 1920, height := 1080,
    fps := 30 }

/-- The `InstagramStory` composition registered by the Root component
(the carousel component of `src/components/scenes/InstagramStory.tsx`). -/
def instagramStoryComposition : CompositionConfig :=
  { id := "InstagramStory", durationInFrames := 180, width := 1080,
    height := 1920, fps := 30 }

/-! ### The carousel timeline (`InstagramStory.tsx`, from the source)

Each `tl.to(target, vars, position)` call of the factory passed to
`useGsapTimeline` is embedded as one record: the target ref's name, the
animated property end values, the duration, the easing string, the
absolute position, and the `repeat`/`yoyo` options (defaulting to no
repeat, no yoyo). -/

/-- One `tl.to` call of the carousel factory. -/
structure SrcTween where
  targetName : String
  vars : List (String × ℚ)
  duration : ℚ
  ease : String
  position : ℚ
  repeatCount : ℕ := 0
  yoyo : Bool := false

/-- The time at which a `tl.to` tween finishes: its position plus its
duration times the number of iterations (`repeat + 1`; `yoyo` alternates
direction but does not change the total span). -/
def SrcTween.endTime (tw : SrcTween) : ℚ :=
  tw.position + tw.duration * (tw.repeatCount + 1)

/-- The final `tl.to` call of the `InstagramStory` carousel factory: the
CTA button pulse — scale to 1.05 over 0.3 s with `yoyo: true` and
`repeat: 3`, placed at position 16.5 s. -/
def ctaPulseTween : SrcTween :=
  { targetName := "s6_button", vars := [("scale", 1.05)],
    duration := 0.3, ease := "power1.inOut", position := 16.5,
    repeatCount := 3, yoyo := true }

/-- Every `tl.to` call of the `InstagramStory` carousel factory, in
source order (the last one is `ctaPulseTween`). -/
def instagramStoryTweens : List SrcTween := [
  { targetName := "progressBar", vars := [("scaleX", 1)], duration := 18,
    ease := "none", position := 0 },
  { targetName := "s1_label", vars := [("x", 0), ("opacity", 1)],
    duration := 0.4, ease := "power2.out", position := 0.1 },
  { targetName := "s1_line", vars := [("scaleX", 1), ("opacity", 1)],
    duration := 0.5, ease := "power3.out", position := 0.15 },
  { targetName := "s1_title", vars := [("y", 0), ("opacity", 1)],
    duration := 0.6, ease := "power3.out", position := 0.2 },
  { targetName := "s1_accent", vars := [("y", 0), ("opacity", 1)],
    duration := 0.5, ease := "power2.out", position := 0.5 },
  { targetName := "slide1", vars := [("y", -1920)],
    duration := 0.7, ease := "power2.inOut", position := 2.4 },
  { targetName := "slide2", vars := [("y", 0)],
    duration := 0.7, ease := "power2.inOut", position := 2.4 },
  { targetName := "s2_stripes", vars := [("opacity", 0.07)],
    duration := 0.5, ease := "power1.out", position := 2.8 },
  { targetName := "s2_label", vars := [("x", 0), ("opacity", 1)],
    duration := 0.4, ease := "power2.out", position := 2.9 },
  { targetName := "s2_icon", vars := [("scale", 1), ("opacity", 1)],
    duration := 0.5, ease := "back.out(1.7)", position := 3.0 },
  { targetName := "s2_title", vars := [("y", 0), ("opacity", 1)],
    duration := 0.5, ease := "power3.out", position := 3.2 },
  { targetName := "s2_sub", vars := [("y", 0), ("opacity", 1)],
    duration := 0.5, ease := "power2.out", position := 3.5 },
  { targetName := "slide2", vars := [("scale", 1.15), ("opacity", 0)],
    duration := 0.6, ease := "power2.inOut", position := 5.4 },
  { targetName := "slide3", vars := [("opacity", 1), ("scale", 1)],
    duration := 0.6, ease := "power2.inOut", position := 5.4 },
  { targetName := "s3_label", vars := [("x", 0), ("opacity", 1)],
    duration := 0.4, ease := "power2.out", position := 5.8 },
  { targetName := "s3_line", vars := [("scaleX", 1), ("opacity", 1)],
    duration := 0.5, ease := "power3.out", position := 5.9 },
  { targetName := "s3_title", vars := [("y", 0), ("opacity", 1)],
    duration := 0.6, ease := "power3.out", position := 6.0 },
  { targetName := "s3_sub", vars := [("y", 0), ("opacity", 1)],
    duration := 0.5, ease := "power2.out", position := 6.3 },
  { targetName := "slide3", vars := [("x", -1080)],
    duration := 0.7, ease := "power2.inOut", position := 8.4 },
  { targetName := "slide4", vars := [("x", 0)],
    duration := 0.7, ease := "power2.inOut", position := 8.4 },
  { targetName := "s4_stripes", vars := [("opacity", 0.07)],
    duration := 0.5, ease := "power1.out", position := 8.8 },
  { targetName := "s4_label", vars := [("x", 0), ("opacity", 1)],
    duration := 0.4, ease := "power2.out", position := 8.9 },
  { targetName := "s4_icon", vars := [("scale", 1), ("opacity", 1)],
    duration := 0.5, ease := "back.out(1.7)", position := 9.0 },
  { targetName := "s4_title", vars := [("y", 0), ("opacity", 1)],
    duration := 0.5, ease := "power3.out", position := 9.2 },
  { targetName := "s4_badge", vars := [("y", 0), ("opacity", 1), ("scale", 1)],
    duration := 0.4, ease := "back.out(1.4)", position := 9.6 },
  { targetName := "slide4",
    vars := [("rotation", 3), ("scale", 0.85), ("opacity", 0)],
    duration := 0.7, ease := "power2.inOut", position := 11.4 },
  { targetName := "slide5", vars := [("opacity", 1)],
    duration := 0.6, ease := "power2.out", position := 11.4 },
  { targetName := "s5_label", vars := [("x", 0), ("opacity", 1)],
    duration := 0.4, ease := "power2.out", position := 11.7 },
  { targetName := "s5_number", vars := [("scale", 1), ("opacity", 1)],
    duration := 0.7, ease := "elastic.out(1, 0.6)", position := 11.8 },
  { targetName := "s5_compare", vars := [("opacity", 1), ("y", 0)],
    duration := 0.4, ease := "power2.out", position := 12.3 },
  { targetName := "s5_title", vars := [("y", 0), ("opacity", 1)],
    duration := 0.5, ease := "power2.out", position := 12.5 },
  { targetName := "slide5", vars := [("y", -1920), ("scale", 0.9)],
    duration := 0.7, ease := "power3.inOut", position := 14.4 },
  { targetName := "slide6", vars := [("y", 0)],
    duration := 0.7, ease := "back.out(0.8)", position := 14.4 },
  { targetName := "s6_icon", vars := [("scale", 1), ("opacity", 1)],
    duration := 0.5, ease := "back.out(1.7)", position := 14.8 },
  { targetName := "s6_title", vars := [("y", 0), ("opacity", 1)],
    duration := 0.6, ease := "power3.out", position := 15.0 },
  { targetName := "s6_sub", vars := [("y", 0), ("opacity", 1)],
    duration := 0.5, ease := "power2.out", position := 15.3 },
  { targetName := "s6_button", vars := [("scale", 1), ("opacity", 1)],
    duration := 0.4, ease := "back.out(1.7)", position := 15.6 },
  ctaPulseTween
]

/-! ### Animation preset library (`src/lib/animations.ts`, from the source)

Each preset is a pair of GSAP var objects: a `from` state and a `to` state
(the `to` state additionally carries `duration` and `ease`).  Fields the
source object does not mention are `none`. -/

/-- A GSAP vars object as used by the preset library: optional animatable
components plus the `to`-side `duration` and `ease` options. -/
structure Vars where
  opacity : Option ℚ := none
  x : Option ℚ := none
  y : Option ℚ := none
  scale : Option ℚ := none
  rotation : Option ℚ := none
  duration : Option ℚ := none
  ease : Option String := none
deriving DecidableEq

/-- An animation preset: its `from` and `to` var objects. -/
structure Preset where
  fromVars : Vars
  toVars : Vars
deriving DecidableEq

def fadeIn : Preset :=
  { fromVars := { opacity := some 0 },
    toVars := { opacity := some 1, duration := some 0.6,
                ease := some "power2.out" } }

def fadeOut : Preset :=
  { fromVars := { opacity := some 1 },
    toVars := { opacity := some 0, duration := some 0.6,
                ease := some "power2.in" } }

def slideUp : Preset :=
  { fromVars := { y := some 80, opacity := some 0 },
    toVars := { y := some 0, opacity := some 1, duration := some 0.8,
                ease := some "power3.out" } }

def slideDown : Preset :=
  { fromVars := { y := some (-80), opacity := some 0 },
    toVars := { y := some 0, opacity := some 1, duration := some 0.8,
                ease := some "power3.out" } }

def slideLeft : Preset :=
  { fromVars := { x := some 100, opacity := some 0 },
    toVars := { x := some 0, opacity := some 1, duration := some 0.8,
                ease := some "power3.out" } }

def slideRight : Preset :=
  { fromVars := { x := some (-100), opacity := some 0 },
    toVars := { x := some 0, opacity := some 1, duration := some 0.8,
                ease := some "power3.out" } }

def scaleIn : Preset :=
  { fromVars := { scale := some 0, opacity := some 0 },
    toVars := { scale := some 1, opacity := some 1, duration := some 0.6,
                ease := some "back.out(1.7)" } }

def scaleOut : Preset :=
  { fromVars := { scale := some 1, opacity := some 1 },
    toVars := { scale := some 0, opacity := some 0, duration := some 0.5,
                ease := some "back.in(1.7)" } }

def popIn : Preset :=
  { fromVars := { scale := some 0.5, opacity := some 0 },
    toVars := { scale := some 1, opacity := some 1, duration := some 0.5,
                ease := some "elastic.out(1, 0.5)" } }

def rotateIn : Preset :=
  { fromVars := { rotation := some (-180), opacity := some 0,
                  scale := some 0.5 },
    toVars := { rotation := some 0, opacity := some 1, scale := some 1,
                duration := some 0.8, ease := some "power3.out" } }

def spin : Preset :=
  { fromVars := { rotation := some 0 },
    toVars := { rotation := some 360, duration := some 1,
                ease := some "none" } }

def heroEntrance : Preset :=
  { fromVars := { y := some 60, opacity := some 0, scale := some 0.9 },
    toVars := { y := some 0, opacity := some 1, scale := some 1,
                duration := some 1, ease := some "power4.out" } }

def subtitleEntrance : Preset :=
  { fromVars := { y := some 30, opacity := some 0 },
    toVars := { y := some 0, opacity := some 1, duration := some 0.7,
                ease := some "power2.out" } }

def exitRight : Preset :=
  { fromVars := { x := some 0, opacity := some 1 },
    toVars := { x := some 200, opacity := some 0, duration := some 0.6,
                ease := some "power2.in" } }

def exitLeft : Preset :=
  { fromVars := { x := some 0, opacity := some 1 },
    toVars := { x := some (-200), opacity := some 0, duration := some 0.6,
                ease := some "power2.in" } }

/-- The entrance presets of the library. -/
def entrancePresets : List Preset :=
  [fadeIn, slideUp, slideDown, slideLeft, slideRight, scaleIn, popIn,
   rotateIn, heroEntrance, subtitleEntrance]

/-- The exit presets of the library. -/
def exitPresets : List Preset :=
  [fadeOut, scaleOut, exitRight, exitLeft]

/-- Every preset the library exports. -/
def allPresets : List Preset :=
  entrancePresets ++ exitPresets ++ [spin]

/-- `true` iff a component is either not animated by the preset (`none`)
or ends at the neutral value `v`. -/
def endsAtOrAbsent (o : Option ℚ) (v : ℚ) : Bool :=
  match o with
  | none => true
  | some q => q == v

/-- `true` iff the vars object declares a strictly positive duration. -/
def declaresPositiveDuration (v : Vars) : Bool :=
  match v.duration with
  | none => false
  | some d => decide (0 < d)

/-! ### Helper lemmas about the bridge model -/

/-- A frame render with no constructed timeline leaves the bridge state
untouched. -/
theorem Bridge.renderFrame_of_none (f r : ℕ) (b : Bridge)
    (h : b.timeline = none) : Bridge.renderFrame f r b = b := by
  unfold Bridge.renderFrame
  rw [h]

/-- A frame render never changes which timeline is mounted. -/
theorem Bridge.renderFrame_timeline (f r : ℕ) (b : Bridge) :
    (Bridge.renderFrame f r b).timeline = b.timeline := by
  unfold Bridge.renderFrame
  cases h : b.timeline <;> exact h

/-- A frame render never invokes the factory. -/
theorem Bridge.renderFrame_factoryCalls (f r : ℕ) (b : Bridge) :
    (Bridge.renderFrame f r b).factoryCalls = b.factoryCalls := by
  unfold Bridge.renderFrame
  cases h : b.timeline <;> rfl

/-- Unfolding one step of a render sequence. -/
theorem Bridge.renderFrames_cons (fr : ℕ × ℕ) (rest : List (ℕ × ℕ))
    (b : Bridge) :
    Bridge.renderFrames (fr :: rest) b
      = Bridge.renderFrames rest (Bridge.renderFrame fr.1 fr.2 b) := rfl

/-- A sequence of frame renders never changes which timeline is mounted. -/
theorem Bridge.renderFrames_timeline (frames : List (ℕ × ℕ)) (b : Bridge) :
    (Bridge.renderFrames frames b).timeline = b.timeline := by
  induction frames generalizing b with
  | nil => rfl
  | cons fr rest ih =>
    rw [Bridge.renderFrames_cons, ih, Bridge.renderFrame_timeline]

/-- A sequence of frame renders never invokes the factory. -/
theorem Bridge.renderFrames_factoryCalls (frames : List (ℕ × ℕ))
    (b : Bridge) :
    (Bridge.renderFrames frames b).factoryCalls = b.factoryCalls := by
  induction frames generalizing b with
  | nil => rfl
  | cons fr rest ih =>
    rw [Bridge.renderFrames_cons, ih, Bridge.renderFrame_factoryCalls]

/-- With no constructed timeline, an entire sequence of frame renders is
the identity. -/
theorem Bridge.renderFrames_of_none (frames : List (ℕ × ℕ)) (b : Bridge)
    (h : b.timeline = none) : Bridge.renderFrames frames b = b := by
  induction frames with
  | nil => rfl
  | cons fr rest ih =>
    rw [Bridge.renderFrames_cons, Bridge.renderFrame_of_none fr.1 fr.2 b h, ih]

/-- Folding the per-tween update over tweens that all start strictly after
`t` returns the incoming value unchanged. -/
theorem foldl_tweenValueAt_before (t : ℚ) (l : List Tween) :
    ∀ v : ℚ, (∀ tw ∈ l, t < tw.startTime) →
      l.foldl (fun v tw => tweenValueAt v tw t) v = v := by
  induction l with
  | nil => intro v _; rfl
  | cons x xs ih =>
    intro v h
    rw [List.foldl_cons]
    have hx : t < x.startTime := h x (List.mem_cons_self x xs)
    have hstep : tweenValueAt v x t = v := by
      unfold tweenValueAt
      rw [if_pos hx]
    rw [hstep]
    exact ih v fun tw htw => h tw (List.mem_cons_of_mem x htw)

/-- A non-empty list always has a last element. -/
theorem getLast?_cons_isSome (y : Tween) (ys : List Tween) :
    ∃ z, (y :: ys).getLast? = some z := by
  induction ys generalizing y with
  | nil => exact ⟨y, rfl⟩
  | cons a as ih =>
    obtain ⟨z, hz⟩ := ih a
    exact ⟨z, by rw [List.getLast?_cons_cons, hz]⟩

/-- Folding the per-tween update over tweens that have all ended by `t`
(and have non-negative durations) yields the end value of the last tween
in the list, or the incoming value if the list is empty. -/
theorem foldl_tweenValueAt_after (t : ℚ) (l : List Tween) :
    ∀ v : ℚ, (∀ tw ∈ l, tw.endTime ≤ t ∧ 0 ≤ tw.duration) →
      l.foldl (fun v tw => tweenValueAt v tw t) v
        = l.getLast?.elim v Tween.endValue := by
  induction l with
  | nil => intro v _; rfl
  | cons x xs ih =>
    intro v h
    obtain ⟨hxe, hxd⟩ := h x (List.mem_cons_self x xs)
    have hxe' : x.startTime + x.duration ≤ t := by
      unfold Tween.endTime at hxe
      exact hxe
    have hst : ¬ t < x.startTime := by
      push_neg
      linarith
    have hstep : tweenValueAt v x t = x.endValue := by
      unfold tweenValueAt
      rw [if_neg hst, if_pos hxe']
    rw [List.foldl_cons, hstep]
    cases xs with
    | nil => rfl
    | cons y ys =>
      rw [ih _ fun tw htw => h tw (List.mem_cons_of_mem x htw)]
      rw [List.getLast?_cons_cons]
      obtain ⟨z, hz⟩ := getLast?_cons_isSome y ys
      rw [hz]
      rfl

/-! ### The claims -/

/-- Claim C1: seeking to the computed time `f / r` twice in succession on
one mounted bridge (no intervening teardown) yields identical animatable
property values both times, and a seek is side-effect-free except for the
targets' animatable properties (timeline, factory-invocation count and
CSS-initial values are untouched). -/
theorem seek_deterministic_idempotent (f r : ℕ) (b : Bridge) :
    (Bridge.renderFrame f r (Bridge.renderFrame f r b)).elems
        = (Bridge.renderFrame f r b).elems
    ∧ (Bridge.renderFrame f r b).timeline = b.timeline
    ∧ (Bridge.renderFrame f r b).factoryCalls = b.factoryCalls
    ∧ (Bridge.renderFrame f r b).initial = b.initial := by
  cases hb : b.timeline with
  | none => simp [Bridge.renderFrame, hb]
  | some tl => simp [Bridge.renderFrame, Bridge.applySeek, hb]

/-- Claim C2: seeking is order-independent — rendering frame `a` and then
frame `b` yields the same property snapshot for `b` as rendering `b`
first (i.e. as in the order `b`, then `a`): no seek result depends on
which frames were processed before. -/
theorem seek_order_independent (a b r : ℕ) (s : Bridge) :
    (Bridge.renderFrame b r (Bridge.renderFrame a r s)).elems
      = (Bridge.renderFrame b r s).elems := by
  cases hs : s.timeline with
  | none => simp [Bridge.renderFrame, hs]
  | some tl => simp [Bridge.renderFrame, Bridge.applySeek, hs]

/-- Claim C3: on every frame render of a mounted bridge, the time the
bridge seeks the timeline to is exactly `frameIndex / frameRate`; the
render is a pure function of the frame index and frame rate (the model
has no wall-clock input at all). -/
theorem seek_time_is_frame_over_rate (f r : ℕ) (b : Bridge) (tl : Timeline)
    (h : b.timeline = some tl) :
    seekTime f r = (f : ℚ) / (r : ℚ)
    ∧ Bridge.renderFrame f r b = Bridge.applySeek tl (seekTime f r) b :=
  ⟨rfl, by unfold Bridge.renderFrame; rw [h]⟩

theorem seek_time_is_frame_over_rate_witness :
    seekTime 15 30 = (15 : ℚ) / 30
    ∧ Bridge.renderFrame 15 30 demoBridge
        = Bridge.applySeek (Timeline.pause (demoFactory ())) (seekTime 15 30)
            demoBridge :=
  seek_time_is_frame_over_rate 15 30 demoBridge
    (Timeline.pause (demoFactory ())) rfl

/-- Claim C4: clamping at the timeline span boundaries — seeking to any
time before the first tween's start on a property yields exactly the
pre-animation value, and seeking to any time after the last tween's end
yields exactly the final value of the last tween affecting the property;
concretely, at frame rate 30 with a single linear opacity tween from 0 to
1 over 1 second starting at 0: frame 0 gives opacity 0, frame 15 gives
1/2, frame 30 gives 1, and frame 60 gives 1 (clamped, no
extrapolation). -/
theorem seek_clamping_and_linear_scenario :
    (∀ (tws : List Tween) (el : ℕ) (p : String) (v t : ℚ),
        (∀ tw ∈ tweensOn tws el p, t < tw.startTime) →
          valueAt tws el p v t = v)
    ∧ (∀ (tws : List Tween) (el : ℕ) (p : String) (v t : ℚ),
        (∀ tw ∈ tweensOn tws el p, tw.endTime ≤ t ∧ 0 ≤ tw.duration) →
          valueAt tws el p v t
            = ((tweensOn tws el p).getLast?.elim v Tween.endValue))
    ∧ (Bridge.renderFrame 0 30 demoBridge).elems 1 "opacity" = 0
    ∧ (Bridge.renderFrame 15 30 demoBridge).elems 1 "opacity" = 1 / 2
    ∧ (Bridge.renderFrame 30 30 demoBridge).elems 1 "opacity" = 1
    ∧ (Bridge.renderFrame 60 30 demoBridge).elems 1 "opacity" = 1 := by
  refine ⟨fun tws el p v t h => foldl_tweenValueAt_before t _ v h,
          fun tws el p v t h => foldl_tweenValueAt_after t _ v h,
          ?_, ?_, ?_, ?_⟩ <;>
    norm_num [Bridge.renderFrame, demoBridge, Bridge.mount, Bridge.init,
      Bridge.applySeek, demoFactory, gsapTimeline, Timeline.pause,
      Timeline.clampTime, Timeline.duration, seekTime, valueAt, tweensOn,
      demoTween, tweenValueAt, Tween.endTime, min_def, max_def]

theorem seek_clamping_and_linear_scenario_witness :
    valueAt [demoTween] 1 "opacity" 7 (-1) = 7 := by
  refine seek_clamping_and_linear_scenario.1 [demoTween] 1 "opacity" 7 (-1) ?_
  simp [tweensOn, demoTween, List.forall_mem_cons]

/-- Claim C5: single construction — across any sequence of frame renders
of one mounted bridge the timeline factory has been invoked exactly once
(once per mount, not once per frame); renders never replace the mounted
timeline, and only a mount (lifetime-context change) invokes the factory
again. -/
theorem timeline_factory_invoked_once (factory : Unit → Timeline)
    (i : ℕ → String → ℚ) (frames : List (ℕ × ℕ)) :
    (Bridge.renderFrames frames
        (Bridge.mount factory (Bridge.init i))).factoryCalls = 1
    ∧ (Bridge.renderFrames frames
        (Bridge.mount factory (Bridge.init i))).timeline
        = (Bridge.mount factory (Bridge.init i)).timeline
    ∧ ∀ b : Bridge,
        (Bridge.mount factory b).factoryCalls = b.factoryCalls + 1 := by
  refine ⟨?_, Bridge.renderFrames_timeline frames _, fun b => rfl⟩
  rw [Bridge.renderFrames_factoryCalls]
  rfl

/-- Claim C6: the timeline is put into the paused state immediately upon
construction at mount, before any seek occurs, and it stays exactly that
paused timeline through any sequence of frame renders; a bare
`gsap.timeline()` (as the caller-side factories build it, with no
`paused` option) is not paused, so pausing is established by the bridge
itself. -/
theorem timeline_paused_invariant (factory : Unit → Timeline)
    (i : ℕ → String → ℚ) (frames : List (ℕ × ℕ)) (tws : List Tween) :
    (Bridge.mount factory (Bridge.init i)).timeline
        = some (Timeline.pause (factory ()))
    ∧ (Timeline.pause (factory ())).paused = true
    ∧ (Bridge.renderFrames frames
        (Bridge.mount factory (Bridge.init i))).timeline
        = some (Timeline.pause (factory ()))
    ∧ (gsapTimeline tws).paused = false :=
  ⟨rfl, rfl, by rw [Bridge.renderFrames_timeline]; rfl, rfl⟩

/-- Claim C7: a seek requested before any timeline has been constructed
is a silent no-op — the bridge state is returned entirely unchanged (no
mutation, no failure). -/
theorem seek_before_mount_is_noop (f r : ℕ) (b : Bridge)
    (h : b.timeline = none) :
    Bridge.renderFrame f r b = b :=
  Bridge.renderFrame_of_none f r b h

theorem seek_before_mount_is_noop_witness :
    Bridge.renderFrame 7 30 (Bridge.init fun _ _ => 0)
      = Bridge.init (fun _ _ => 0) :=
  seek_before_mount_is_noop 7 30 (Bridge.init fun _ _ => 0) rfl

/-- Claim C8: teardown isolation — unmounting releases the timeline and
reverses every tracked property mutation (elements return to their
CSS-initial values), and afterwards no sequence of further seek calls,
however erroneously issued, changes the bridge state at all. -/
theorem teardown_isolation (b : Bridge) (frames : List (ℕ × ℕ)) :
    (Bridge.unmount b).timeline = none
    ∧ (Bridge.unmount b).elems = b.initial
    ∧ Bridge.renderFrames frames (Bridge.unmount b) = Bridge.unmount b :=
  ⟨rfl, rfl, Bridge.renderFrames_of_none frames _ rfl⟩

/-- Claim C9: the carousel component registered under composition id
"InstagramStory" is registered with `durationInFrames / fps = 180 / 30 =
6` seconds, but its factory's last tween — the CTA button pulse, ending
at `16.5 + 4 × 0.3 = 17.7` seconds — does NOT end within that 6-second
span: the registration contradicts the component's own documented
18-second (540-frame) timeline, so not every tween ends by the
registered composition duration. -/
theorem instagramStory_cta_pulse_exceeds_registered_duration :
    instagramStoryComposition.durationSeconds = 6
    ∧ SrcTween.endTime ctaPulseTween = 177 / 10
    ∧ ctaPulseTween ∈ instagramStoryTweens
    ∧ instagramStoryComposition.durationSeconds
        < SrcTween.endTime ctaPulseTween := by
  refine ⟨?_, ?_, ?_, ?_⟩
  · norm_num [CompositionConfig.durationSeconds, instagramStoryComposition]
  · norm_num [SrcTween.endTime, ctaPulseTween]
  · simp [instagramStoryTweens]
  · norm_num [CompositionConfig.durationSeconds, instagramStoryComposition,
      SrcTween.endTime, ctaPulseTween]

/-- Claim C10: preset normalization in `src/lib/animations.ts` — every
entrance preset's `to` state has opacity 1 and neutral transform
components (any x or y it animates ends at 0, scale at 1, rotation at 0);
every exit preset's `to` state has opacity 0; and every preset's `to`
state declares a strictly positive duration. -/
theorem animation_presets_normalized :
    (∀ p ∈ entrancePresets,
        p.toVars.opacity = some 1
        ∧ endsAtOrAbsent p.toVars.x 0 = true
        ∧ endsAtOrAbsent p.toVars.y 0 = true
        ∧ endsAtOrAbsent p.toVars.scale 1 = true
        ∧ endsAtOrAbsent p.toVars.rotation 0 = true)
    ∧ (∀ p ∈ exitPresets, p.toVars.opacity = some 0)
    ∧ (∀ p ∈ allPresets, declaresPositiveDuration p.toVars = true) := by
  norm_num [allPresets, entrancePresets, exitPresets, List.forall_mem_cons,
    fadeIn, fadeOut, slideUp, slideDown, slideLeft, slideRight, scaleIn,
    scaleOut, popIn, rotateIn, spin, heroEntrance, subtitleEntrance,
    exitRight, exitLeft, endsAtOrAbsent, declaresPositiveDuration]

theorem animation_presets_normalized_witness :
    fadeIn.toVars.opacity = some 1 :=
  (animation_presets_normalized.1 fadeIn (by simp [entrancePresets])).1
